import Mathlib

/-!
Verification of the label-generation program `generate_pdf_label.py`
(repository `create_gw_label`).

The Python source is shallowly embedded below.  Real-valued quantities
(page geometry in points, measured text widths) are modelled over `ℚ`;
the Python implementation computes them in IEEE floating point, but every
claim settled here is about the control flow and string manipulation of
the layout algorithm, for which exact rational arithmetic is the intended
reading.  Python `int()` truncation toward zero and Python slice
semantics (including negative slice bounds) are embedded explicitly.
-/

namespace GwLabel

/-! ## The input classifier (`is_ip_address`, `is_registration_code`) -/

/-- One octet of the dotted-decimal pattern on line 43 of
`generate_pdf_label.py`: the exact language of
`25[0-5]|2[0-4][0-9]|[01]?[0-9][0-9]?` — a single digit, any two digits,
or three digits forming `250`-`255`, `200`-`249`, or `000`-`199`. -/
def isOctet (l : List Char) : Bool :=
  match l with
  | [a] => a.isDigit
  | [a, b] => a.isDigit && b.isDigit
  | [a, b, c] =>
      (a == '2' && b == '5' && c.isDigit && decide (c ≤ ('5'))) ||
      (a == '2' && b.isDigit && decide (b ≤ ('4')) && c.isDigit) ||
      ((a == '0' || a == '1') && b.isDigit && c.isDigit)
  | _ => false

/-- Split a character list at every `'.'` (the dot-separated components
that the anchored regex on line 43 must each match). -/
def splitDots : List Char → List (List Char)
  | [] => [[]]
  | c :: cs =>
    if c = '.' then [] :: splitDots cs
    else
      match splitDots cs with
      | [] => [[c]]
      | p :: ps => (c :: p) :: ps

/-- Python's `re.match(..., s)` with a `$`-anchored pattern also matches
when a single newline trails the otherwise-matching text, so a trailing
`'\n'` is stripped before decomposing. -/
def stripTrailingNewline (l : List Char) : List Char :=
  if l.getLast? = some ('\n') then l.dropLast else l

/-- `is_ip_address` (lines 41-44): the whole input (up to one trailing
newline) must be four dot-separated octets. -/
def is_ip_address (s : String) : Bool :=
  (splitDots (stripTrailingNewline s.data)).length == 4 &&
    (splitDots (stripTrailingNewline s.data)).all isOctet

/-- `is_registration_code` (lines 46-57): length at least 10, no `'.'`,
and at least one letter and one digit.  Python's Unicode `str.isalpha` /
`str.isdigit` are modelled by the ASCII `Char.isAlpha` / `Char.isDigit`
(registration codes are ASCII). -/
def is_registration_code (s : String) : Bool :=
  if s.length < 10 then false
  else if ('.') ∈ s.data then false
  else s.data.any Char.isAlpha && s.data.any Char.isDigit

/-- The three input categories of the specification's input classifier. -/
inductive Category where
  | NetworkAddress
  | OpaqueCode
  | Unrecognized
  deriving DecidableEq

/-- The classification order of `generate_label` (lines 240-257):
`is_ip_address` first, then `is_registration_code`, else unrecognized. -/
def classify (s : String) : Category :=
  if is_ip_address s then .NetworkAddress
  else if is_registration_code s then .OpaqueCode
  else .Unrecognized

/-! ## Page geometry and font metrics -/

/-- The non-digit rows of the Helvetica-Bold advance-width table
(see `charWidth`). -/
def charWidthTable (c : Char) : ℕ :=
  match c with
    | ' ' => 278 | '!' => 333 | '"' => 474 | '#' => 556 | '$' => 556
    | '%' => 889 | '&' => 722 | '\'' => 238 | '(' => 333 | ')' => 333
    | '*' => 389 | '+' => 584 | ',' => 278 | '-' => 333 | '.' => 278
    | '/' => 278 | ':' => 333 | ';' => 333 | '<' => 584 | '=' => 584
    | '>' => 584 | '?' => 611 | '@' => 975
    | 'A' => 722 | 'B' => 722 | 'C' => 722 | 'D' => 722 | 'E' => 667
    | 'F' => 611 | 'G' => 778 | 'H' => 722 | 'I' => 278 | 'J' => 556
    | 'K' => 722 | 'L' => 611 | 'M' => 833 | 'N' => 722 | 'O' => 778
    | 'P' => 667 | 'Q' => 778 | 'R' => 722 | 'S' => 667 | 'T' => 611
    | 'U' => 722 | 'V' => 667 | 'W' => 944 | 'X' => 667 | 'Y' => 667
    | 'Z' => 611
    | '[' => 333 | '\\' => 278 | ']' => 333 | '^' => 584 | '_' => 556
    | '\x60' => 333
    | 'a' => 556 | 'b' => 611 | 'c' => 556 | 'd' => 611 | 'e' => 556
    | 'f' => 333 | 'g' => 611 | 'h' => 611 | 'i' => 278 | 'j' => 278
    | 'k' => 556 | 'l' => 278 | 'm' => 889 | 'n' => 611 | 'o' => 611
    | 'p' => 611 | 'q' => 611 | 'r' => 389 | 's' => 556 | 't' => 333
    | 'u' => 611 | 'v' => 556 | 'w' => 778 | 'x' => 556 | 'y' => 556
    | 'z' => 500
    | '\x7b' => 389 | '|' => 280 | '\x7d' => 389 | '~' => 584
    | _ => 0

/-- Per-mille glyph advance widths of the Helvetica-Bold font, from the
standard Adobe font metrics that the PDF library (reportlab) ships and
uses for `stringWidth(text, "Helvetica-Bold", size)`.  Characters outside
the printable ASCII range are given width 0 (the program only ever
measures registration-code text).  All ASCII digits have width 556. -/
def charWidth (c : Char) : ℕ :=
  if c.isDigit then 556 else charWidthTable c

/-- `c.stringWidth(text, "Helvetica-Bold", size)` of the PDF library:
`size` points times the summed per-mille glyph widths over 1000. -/
def stringWidth (l : List Char) (size : ℚ) : ℚ :=
  size * (((l.map charWidth).sum : ℕ) : ℚ) / 1000

/-- `inch` unit of the PDF library: 72 points. -/
def inch : ℚ := 72

/-- `margin = 0.1 * inch` (line 124 of `generate_pdf_label.py`). -/
def margin : ℚ := inch / 10

/-- `qr_size = min(height_pts - 2*margin, 0.75 * inch)` (line 132). -/
def qr_size (height_pts : ℚ) : ℚ :=
  min (height_pts - 2 * margin) (3 * inch / 4)

/-- `text_start_x = qr_x + qr_size + 0.1 * inch` with `qr_x = margin`
(lines 133, 164). -/
def text_start_x (height_pts : ℚ) : ℚ :=
  margin + qr_size height_pts + inch / 10

/-- `available_text_width = width_pts - text_start_x - margin - 0.05 * inch`
(line 176), with `width_pts = width_inches * inch`. -/
def available_text_width (width_inches height_inches : ℚ) : ℚ :=
  width_inches * inch - text_start_x (height_inches * inch) - margin - inch / 20

/-! ## The adaptive text-fitting chain of `create_pdf_label` -/

/-- Python `int()` applied to an exact rational: truncation toward zero. -/
def pyInt (q : ℚ) : ℤ :=
  if 0 ≤ q then ⌊q⌋ else -⌊-q⌋

/-- Python slice `l[:m]` for an `int` bound `m`: for `m ≥ 0` the first `m`
elements (clamped to the length), for `m < 0` all but the last `-m`
elements (clamped below at the empty list). -/
def pySlice (l : List Char) (m : ℤ) : List Char :=
  l.take (if 0 ≤ m then m.toNat else ((l.length : ℤ) + m).toNat)

/-- The loop-body test of the split-point search (lines 199-200):
position `i` is usable when `i > 0 and i < len(reg_code)` and
`not reg_code[i-1].isalnum() or not reg_code[i].isalnum()`. -/
def breakOk (l : List Char) (i : ℤ) : Bool :=
  decide (0 < i) && decide (i < (l.length : ℤ)) &&
    (!(l.getD (i - 1).toNat (' ')).isAlphanum || !(l.getD i.toNat (' ')).isAlphanum)

/-- The candidate split positions `range(mid_point - 2, mid_point + 3)`
(line 198), scanned left to right, where `mid_point = len(reg_code) // 2`. -/
def windowList (l : List Char) : List ℤ :=
  [(l.length / 2 : ℕ) - 2, (l.length / 2 : ℕ) - 1, ((l.length / 2 : ℕ) : ℤ),
   (l.length / 2 : ℕ) + 1, (l.length / 2 : ℕ) + 2]

/-- The final `mid_point` of lines 196-202: the first candidate position
satisfying `breakOk`, else `len(reg_code) // 2`. -/
def splitPoint (l : List Char) : ℕ :=
  match (windowList l).find? (breakOk l) with
  | some i => i.toNat
  | none => l.length / 2

/-- The ellipsis marker `"..."` appended on truncation (line 217). -/
def ellipsis : List Char := ['.', '.', '.']

/-- `max_chars = int(len(reg_code) * available_text_width / text_width) - 3`
(line 216), where `text_width` is the size-6 width of the full code. -/
def maxChars (l : List Char) (avail : ℚ) : ℤ :=
  pyInt ((l.length : ℚ) * avail / stringWidth l 6) - 3

/-- The four ways the adaptive fitting step (lines 179-218) draws the
code text: `single7` is the full code as one line at bold size 7 (no
fallback ran), `single6` the full code as one line at bold size 6,
`twoLines` two stacked lines at size 6, `truncated` a shortened single
line ending in `"..."` at size 6. -/
inductive FitResult where
  | single7 (line : List Char)
  | single6 (line : List Char)
  | twoLines (line1 line2 : List Char)
  | truncated (line : List Char)
  deriving DecidableEq

/-- The adaptive code-text fitting chain of `create_pdf_label`
(lines 179-218).  `none` models the one way the chain itself can raise:
the division on line 216 raises `ZeroDivisionError` when the size-6
width of the code is zero (only possible for text with no positive-width
characters, e.g. the empty string). -/
def fitCode (code : List Char) (avail : ℚ) : Option FitResult :=
  if stringWidth code 7 ≤ avail then some (.single7 code)
  else if stringWidth code 6 ≤ avail then some (.single6 code)
  else if stringWidth (code.take (splitPoint code)) 6 ≤ avail ∧
          stringWidth (code.drop (splitPoint code)) 6 ≤ avail then
    some (.twoLines (code.take (splitPoint code)) (code.drop (splitPoint code)))
  else if stringWidth code 6 = 0 then none
  else some (.truncated (pySlice code (maxChars code avail) ++ ellipsis))

/-! ## The rendered label and `generate_label` -/

/-- The scannable image produced by `generate_qr_code` (lines 94-113):
observably, the payload text encoded into it. -/
structure QRImage where
  payload : List Char
  deriving DecidableEq

/-- `generate_qr_code(data)` encodes exactly its argument. -/
def generate_qr_code (data : List Char) : QRImage :=
  ⟨data⟩

/-- The observable content of the finished one-page label: the payload of
the drawn QR image and the drawn code-text lines. -/
structure Label where
  qrPayload : List Char
  fit : FitResult
  deriving DecidableEq

/-- `create_pdf_label(reg_code, ..., width_inches, height_inches)`
(lines 115-221): the QR image is generated from the full `reg_code`
(line 137) before the text fitting; `none` models an exception escaping
before `c.save()` (no document produced). -/
def create_pdf_label (reg_code : List Char) (width_inches height_inches : ℚ) :
    Option Label :=
  (fitCode reg_code (available_text_width width_inches height_inches)).map
    (fun r => ⟨(generate_qr_code reg_code).payload, r⟩)

/-- Outcome of `generate_label` (lines 223-266).  `invalidInput` and
`fetchFailed` both return Python `None` without ever calling
`create_pdf_label`; `rendered code result` records the code passed to
`create_pdf_label` and the render result (`none` = exception caught,
Python returns `None`). -/
inductive GLOutcome where
  | invalidInput
  | fetchFailed
  | rendered (code : List Char) (result : Option Label)
  deriving DecidableEq

/-- `generate_label(device_input, ...)` (lines 223-266).  The device
fetch (`fetch_device_data`, an HTTP collaborator) is abstracted as a
function returning `none` for its `(None, None)` failure result, or the
fetched `(qr_svg, reg_code)` strings.  Line 244 checks the fetched
values for Python truthiness (`if not qr_svg or not reg_code`), so empty
strings are treated like a failed fetch. -/
def generate_label (fetch : String → Option (String × String))
    (device_input : String) (width_inches height_inches : ℚ) : GLOutcome :=
  if is_ip_address device_input then
    match fetch device_input with
    | none => .fetchFailed
    | some (qr_svg, reg_code) =>
      if qr_svg = ("") ∨ reg_code = ("") then .fetchFailed
      else .rendered reg_code.data (create_pdf_label reg_code.data width_inches height_inches)
  else if is_registration_code device_input then
    .rendered device_input.data (create_pdf_label device_input.data width_inches height_inches)
  else .invalidInput

/-- The Python return value of `generate_label`, up to the output path:
`some` label content iff a document was produced. -/
def glResult : GLOutcome → Option Label
  | .rendered _ (some lab) => some lab
  | _ => none

/-! ## Formalised statements of the two claims that fail on the code -/

/-- Position `i` of the split window is a boundary between a
non-alphanumeric and an alphanumeric character (or vice versa) — the
"natural break" notion of the specification text, which requires the two
neighbours to differ in alphanumeric-ness. -/
def mixedBoundary (l : List Char) (i : ℤ) : Bool :=
  decide (0 < i) && decide (i < (l.length : ℤ)) &&
    ((l.getD (i - 1).toNat (' ')).isAlphanum != (l.getD i.toNat (' ')).isAlphanum)

/-- Claim C1 as stated: whenever the size-6 width of the code still
exceeds the available width and the two split halves do not both fit,
the rendered line is the prefix of length
`⌊len * avail / width₆⌋ - 3` of the code followed by `"..."`, it is a
strict prefix, and its measured size-6 width is at most the available
width. -/
def ClaimC1 (s : String) (w h : ℚ) : Prop :=
  is_registration_code s = true →
  available_text_width w h < stringWidth s.data 6 →
  ¬(stringWidth (s.data.take (splitPoint s.data)) 6 ≤ available_text_width w h ∧
    stringWidth (s.data.drop (splitPoint s.data)) 6 ≤ available_text_width w h) →
  ∃ line : List Char,
    fitCode s.data (available_text_width w h) = some (.truncated line) ∧
    (∃ n : ℕ,
      (n : ℤ) = ⌊(s.data.length : ℚ) * available_text_width w h / stringWidth s.data 6⌋ - 3 ∧
      line = s.data.take n ++ ellipsis ∧ n < s.data.length) ∧
    stringWidth line 6 ≤ available_text_width w h

/-- Claim C2 as stated: for a code fitting neither at size 7 nor at
size 6, the split point is found by searching the window for a boundary
between a non-alphanumeric and an alphanumeric character (or vice
versa), and if no such boundary exists in the window the split is made
exactly at `len / 2`. -/
def ClaimC2 (s : String) (w h : ℚ) : Prop :=
  is_registration_code s = true →
  available_text_width w h < stringWidth s.data 7 →
  available_text_width w h < stringWidth s.data 6 →
  ((∃ i ∈ windowList s.data, mixedBoundary s.data i = true) →
      (splitPoint s.data : ℤ) ∈ windowList s.data ∧
      mixedBoundary s.data (splitPoint s.data) = true) ∧
  ((∀ i ∈ windowList s.data, mixedBoundary s.data i = false) →
      splitPoint s.data = s.data.length / 2)

/-- A concrete registration code (10 wide `'W'` glyphs followed by 90
narrow `'1'` glyphs) exercising the truncation branch: its front-loaded
wide glyphs defeat the proportional truncation formula. -/
def wideCode : String :=
  "WWWWWWWWWW111111111111111111111111111111111111111111111111111111111111111111111111111111111111111111"

/-- The single line actually drawn for `wideCode` on a 2.6in x 1.0in
page: the 27-character budget prefix followed by `"..."`. -/
def wideCodeLine : List Char :=
  ("WWWWWWWWWW11111111111111111...").data

/-- A concrete registration code whose midpoint sits inside a run of six
dashes: every split-window position has two non-alphanumeric neighbours,
so no non-alphanumeric/alphanumeric boundary exists in the window. -/
def dashCode : String := "AB1CD2E------F3GHIJK"

/-! ## Helper lemmas -/

/-- Case equation: the code fits at bold size 7. -/
theorem fitCode_of_fit7 {code : List Char} {avail : ℚ}
    (h : stringWidth code 7 ≤ avail) :
    fitCode code avail = some (.single7 code) := by
  rw [fitCode, if_pos h]

/-- Case equation: the code fits at bold size 6 but not at 7. -/
theorem fitCode_of_fit6 {code : List Char} {avail : ℚ}
    (h7 : ¬ stringWidth code 7 ≤ avail) (h6 : stringWidth code 6 ≤ avail) :
    fitCode code avail = some (.single6 code) := by
  rw [fitCode, if_neg h7, if_pos h6]

/-- Case equation: neither size fits but both split halves do. -/
theorem fitCode_of_twoLines {code : List Char} {avail : ℚ}
    (h7 : ¬ stringWidth code 7 ≤ avail) (h6 : ¬ stringWidth code 6 ≤ avail)
    (h12 : stringWidth (code.take (splitPoint code)) 6 ≤ avail ∧
           stringWidth (code.drop (splitPoint code)) 6 ≤ avail) :
    fitCode code avail
      = some (.twoLines (code.take (splitPoint code)) (code.drop (splitPoint code))) := by
  rw [fitCode, if_neg h7, if_neg h6, if_pos h12]

/-- Case equation: nothing fits, so the code is truncated. -/
theorem fitCode_of_truncation {code : List Char} {avail : ℚ}
    (h7 : ¬ stringWidth code 7 ≤ avail) (h6 : ¬ stringWidth code 6 ≤ avail)
    (h12 : ¬(stringWidth (code.take (splitPoint code)) 6 ≤ avail ∧
             stringWidth (code.drop (splitPoint code)) 6 ≤ avail))
    (hz : ¬ stringWidth code 6 = 0) :
    fitCode code avail
      = some (.truncated (pySlice code (maxChars code avail) ++ ellipsis)) := by
  rw [fitCode, if_neg h7, if_neg h6, if_neg h12, if_neg hz]

theorem splitDots_ne_nil (l : List Char) : splitDots l ≠ [] := by
  cases l with
  | nil => simp [splitDots]
  | cons c cs =>
    simp only [splitDots]
    split
    · simp
    · split <;> simp

theorem splitDots_length (l : List Char) :
    (splitDots l).length = l.count ('.') + 1 := by
  induction l with
  | nil => simp [splitDots]
  | cons c cs ih =>
    by_cases hc : c = '.'
    · subst hc
      have he : splitDots ('.' :: cs) = [] :: splitDots cs := by
        simp [splitDots]
      rw [he, List.length_cons, List.count_cons_self, ih]
    · have he : (splitDots (c :: cs)).length = (splitDots cs).length := by
        simp only [splitDots]
        rw [if_neg hc]
        cases h : splitDots cs with
        | nil => exact absurd h (splitDots_ne_nil cs)
        | cons p ps => simp
      rw [he, ih, List.count_cons_of_ne (by simpa using Ne.symm hc)]

/-- A string matching the dotted-decimal pattern contains a dot
(so `is_ip_address` and `is_registration_code` cannot both hold). -/
theorem dot_mem_of_ip {s : String} (h : is_ip_address s = true) :
    ('.') ∈ s.data := by
  rw [is_ip_address, Bool.and_eq_true] at h
  have h4 : (splitDots (stripTrailingNewline s.data)).length = 4 := by
    simpa using h.1
  have hlen := splitDots_length (stripTrailingNewline s.data)
  have hpos : 0 < (stripTrailingNewline s.data).count ('.') := by omega
  have hmem : ('.') ∈ stripTrailingNewline s.data := List.count_pos_iff.mp hpos
  rw [stripTrailingNewline] at hmem
  by_cases hlast : s.data.getLast? = some ('\n')
  · rw [if_pos hlast] at hmem
    exact (List.dropLast_sublist s.data).subset hmem
  · rwa [if_neg hlast] at hmem

/-- A text containing an ASCII digit has positive measured width at any
positive font size. -/
theorem stringWidth_pos_of_digit {l : List Char}
    (hd : l.any Char.isDigit = true) {sz : ℚ} (hsz : 0 < sz) :
    0 < stringWidth l sz := by
  rw [List.any_eq_true] at hd
  obtain ⟨c, hcl, hcd⟩ := hd
  have h556 : charWidth c = 556 := by rw [charWidth, if_pos hcd]
  have hmem : 556 ∈ l.map charWidth := h556 ▸ List.mem_map_of_mem charWidth hcl
  have hle : 556 ≤ (l.map charWidth).sum := List.le_sum_of_mem hmem
  have hq : (0:ℚ) < (((l.map charWidth).sum : ℕ) : ℚ) := by
    exact_mod_cast lt_of_lt_of_le (by norm_num) hle
  rw [stringWidth]
  positivity

/-- What `is_registration_code s = true` guarantees: length at least 10
and the presence of a digit. -/
theorem reg_code_facts {s : String} (h : is_registration_code s = true) :
    10 ≤ s.data.length ∧ s.data.any Char.isDigit = true := by
  rw [is_registration_code] at h
  by_cases h1 : s.length < 10
  · rw [if_pos h1] at h; simp at h
  · rw [if_neg h1] at h
    by_cases h2 : ('.') ∈ s.data
    · rw [if_pos h2] at h; simp at h
    · rw [if_neg h2, Bool.and_eq_true] at h
      have hsl : s.length = s.data.length := rfl
      exact ⟨by omega, h.2⟩

theorem pyInt_nonpos {q : ℚ} (h : q ≤ 0) : pyInt q ≤ 0 := by
  rw [pyInt]
  by_cases h0 : 0 ≤ q
  · rw [if_pos h0]
    have hq0 : q = 0 := le_antisymm h h0
    simp [hq0]
  · rw [if_neg h0]
    have : (0:ℚ) ≤ -q := by linarith [not_le.mp h0]
    have := Int.floor_nonneg.mpr this
    omega

theorem pyInt_lt_of_nonneg {q : ℚ} {n : ℤ} (h0 : 0 ≤ q) (h : q < (n : ℚ)) :
    pyInt q < n := by
  rw [pyInt, if_pos h0]
  exact Int.floor_lt.mpr h

/-- `find?` returns the first satisfying element: the list decomposes
around the found element with all earlier elements failing. -/
theorem find?_first {α : Type} (p : α → Bool) :
    ∀ (l : List α) (a : α), l.find? p = some a →
      p a = true ∧ ∃ l1 l2, l = l1 ++ a :: l2 ∧ ∀ x ∈ l1, p x = false
  | [], a => by simp
  | b :: bs, a => by
    intro h
    by_cases hb : p b = true
    · rw [List.find?_cons_of_pos bs hb] at h
      injection h with h
      subst h
      exact ⟨hb, [], bs, rfl, by simp⟩
    · rw [List.find?_cons_of_neg bs (by simpa using hb)] at h
      obtain ⟨hpa, l1, l2, heq, hl1⟩ := find?_first p bs a h
      refine ⟨hpa, b :: l1, l2, by rw [heq, List.cons_append], ?_⟩
      intro x hx
      rcases List.mem_cons.mp hx with rfl | hx
      · simpa using hb
      · exact hl1 x hx

/-! ## Concrete evaluations for the two distinguished inputs -/

theorem avail_26_eval : available_text_width (13/5) 1 = 108 := by
  rw [available_text_width, text_start_x, qr_size, margin, inch]
  rw [min_eq_right (by norm_num)]
  norm_num

theorem avail_165_eval : available_text_width (33/20) 1 = 198/5 := by
  rw [available_text_width, text_start_x, qr_size, margin, inch]
  rw [min_eq_right (by norm_num)]
  norm_num

theorem wideCode_sum : (wideCode.data.map charWidth).sum = 59480 := by decide

theorem wideCode_gate6 :
    available_text_width (13/5) 1 < stringWidth wideCode.data 6 := by
  rw [avail_26_eval, stringWidth, wideCode_sum]
  norm_num

theorem wideCode_gate7 :
    ¬ stringWidth wideCode.data 7 ≤ available_text_width (13/5) 1 := by
  rw [avail_26_eval, stringWidth, wideCode_sum]
  norm_num

theorem wideCode_halves :
    ¬(stringWidth (wideCode.data.take (splitPoint wideCode.data)) 6
        ≤ available_text_width (13/5) 1 ∧
      stringWidth (wideCode.data.drop (splitPoint wideCode.data)) 6
        ≤ available_text_width (13/5) 1) := by
  intro hcon
  have h1 := hcon.1
  have hsp : splitPoint wideCode.data = 50 := by decide
  have hsum : ((wideCode.data.take 50).map charWidth).sum = 31680 := by decide
  rw [hsp, avail_26_eval, stringWidth, hsum] at h1
  norm_num at h1

theorem wideCode_maxChars :
    maxChars wideCode.data (available_text_width (13/5) 1) = 27 := by
  rw [avail_26_eval, maxChars, stringWidth, wideCode_sum]
  have hl : wideCode.data.length = 100 := by decide
  rw [hl, pyInt, if_pos (by norm_num)]
  norm_num

theorem wideCode_fit :
    fitCode wideCode.data (available_text_width (13/5) 1)
      = some (.truncated wideCodeLine) := by
  have h6 : ¬ stringWidth wideCode.data 6 ≤ available_text_width (13/5) 1 :=
    not_le.mpr wideCode_gate6
  have hz : ¬ stringWidth wideCode.data 6 = 0 := by
    rw [stringWidth, wideCode_sum]
    norm_num
  have h := fitCode_of_truncation wideCode_gate7 h6 wideCode_halves hz
  rw [wideCode_maxChars] at h
  rw [h]
  have he : pySlice wideCode.data 27 ++ ellipsis = wideCodeLine := by decide
  rw [he]

theorem wideCodeLine_sum : (wideCodeLine.map charWidth).sum = 19726 := by decide

theorem wideCodeLine_overflows :
    ¬ stringWidth wideCodeLine 6 ≤ available_text_width (13/5) 1 := by
  rw [avail_26_eval, stringWidth, wideCodeLine_sum]
  norm_num

theorem dashCode_sum : (dashCode.data.map charWidth).sum = 10888 := by decide

theorem dashCode_gate7 :
    available_text_width (33/20) 1 < stringWidth dashCode.data 7 := by
  rw [avail_165_eval, stringWidth, dashCode_sum]
  norm_num

theorem dashCode_gate6 :
    available_text_width (33/20) 1 < stringWidth dashCode.data 6 := by
  rw [avail_165_eval, stringWidth, dashCode_sum]
  norm_num

theorem dashCode_fit :
    fitCode dashCode.data (available_text_width (33/20) 1)
      = some (.twoLines (("AB1CD2E-").data) (("-----F3GHIJK").data)) := by
  have hsp : splitPoint dashCode.data = 8 := by decide
  have h1 : stringWidth (dashCode.data.take (splitPoint dashCode.data)) 6
      ≤ available_text_width (33/20) 1 := by
    have hsum : ((dashCode.data.take 8).map charWidth).sum = 5000 := by decide
    rw [hsp, avail_165_eval, stringWidth, hsum]
    norm_num
  have h2 : stringWidth (dashCode.data.drop (splitPoint dashCode.data)) 6
      ≤ available_text_width (33/20) 1 := by
    have hsum : ((dashCode.data.drop 8).map charWidth).sum = 5888 := by decide
    rw [hsp, avail_165_eval, stringWidth, hsum]
    norm_num
  have h := fitCode_of_twoLines (not_le.mpr dashCode_gate7) (not_le.mpr dashCode_gate6)
    ⟨h1, h2⟩
  rw [h, hsp]
  have e1 : dashCode.data.take 8 = ("AB1CD2E-").data := by decide
  have e2 : dashCode.data.drop 8 = ("-----F3GHIJK").data := by decide
  rw [e1, e2]

theorem regDemo_fits7 :
    stringWidth (("R57NX98AAFC62AF2A").data) 7 ≤ available_text_width (21/8) 1 := by
  have hsum : ((("R57NX98AAFC62AF2A").data).map charWidth).sum = 10835 := by decide
  have ha : available_text_width (21/8) 1 = 549/5 := by
    rw [available_text_width, text_start_x, qr_size, margin, inch]
    rw [min_eq_right (by norm_num)]
    norm_num
  rw [ha, stringWidth, hsum]
  norm_num

/-! ## The claims -/

/-- C1 (counterexample): for the code of ten wide `'W'` glyphs followed
by ninety narrow `'1'` glyphs on a 2.6in x 1.0in page, the truncation
branch runs, the drawn line is the 27-character budget prefix plus
`"..."` exactly as the formula dictates — but its measured size-6 width
(118.356pt) exceeds the available text width (108pt), refuting the
claim's no-overflow conjunct. -/
theorem spec_C1_counterexample : ¬ ClaimC1 wideCode (13/5) 1 := by
  intro hc
  obtain ⟨line, hfit, -, hwid⟩ := hc (by decide) wideCode_gate6 wideCode_halves
  rw [wideCode_fit] at hfit
  have hline : wideCodeLine = line := FitResult.truncated.inj (Option.some.inj hfit)
  rw [← hline] at hwid
  exact wideCodeLine_overflows hwid

/-- C1 (amended): when the size-6 width still exceeds the available
width and the two split halves do not both fit, the drawn line is a
strict prefix of the code followed by `"..."`, and whenever the computed
character budget `max_chars` is nonnegative the prefix length equals
that budget (for a negative budget Python's negative slice shortens from
the end instead); no bound holds on the drawn line's measured width. -/
theorem spec_C1_truncation_shape (s : String) (w h : ℚ)
    (hreg : is_registration_code s = true)
    (h6 : available_text_width w h < stringWidth s.data 6)
    (hsp : ¬(stringWidth (s.data.take (splitPoint s.data)) 6 ≤ available_text_width w h ∧
            stringWidth (s.data.drop (splitPoint s.data)) 6 ≤ available_text_width w h)) :
    ∃ k : ℕ, k < s.data.length ∧
      fitCode s.data (available_text_width w h)
        = some (.truncated (s.data.take k ++ ellipsis)) ∧
      (0 ≤ maxChars s.data (available_text_width w h) →
        (k : ℤ) = maxChars s.data (available_text_width w h)) := by
  obtain ⟨hlen, hdig⟩ := reg_code_facts hreg
  have hw6 : 0 < stringWidth s.data 6 := stringWidth_pos_of_digit hdig (by norm_num)
  have h7 : ¬ stringWidth s.data 7 ≤ available_text_width w h := by
    rw [not_le]
    refine lt_of_lt_of_le h6 ?_
    rw [stringWidth, stringWidth]
    have hS : (0:ℚ) ≤ (((s.data.map charWidth).sum : ℕ) : ℚ) := by positivity
    linarith
  have h6' : ¬ stringWidth s.data 6 ≤ available_text_width w h := not_le.mpr h6
  have hz : ¬ stringWidth s.data 6 = 0 := hw6.ne'
  have hfit := fitCode_of_truncation h7 h6' hsp hz
  set avail := available_text_width w h with ha
  set q : ℚ := (s.data.length : ℚ) * avail / stringWidth s.data 6 with hq
  have hmq : maxChars s.data avail = pyInt q - 3 := rfl
  refine ⟨if 0 ≤ maxChars s.data avail then (maxChars s.data avail).toNat
          else ((s.data.length : ℤ) + maxChars s.data avail).toNat, ?_, ?_, ?_⟩
  · by_cases h0 : 0 ≤ maxChars s.data avail
    · rw [if_pos h0]
      have hqpos : 0 < q := by
        by_contra hqn
        push_neg at hqn
        have := pyInt_nonpos hqn
        omega
      have havpos : 0 < avail := by
        by_contra hav
        push_neg at hav
        have hnum : (s.data.length : ℚ) * avail ≤ 0 :=
          mul_nonpos_of_nonneg_of_nonpos (by positivity) hav
        have hqn : q ≤ 0 := by
          rw [hq]
          exact div_nonpos_iff.mpr (Or.inr ⟨hnum, hw6.le⟩)
        linarith
      have hlpos : (0:ℚ) < (s.data.length : ℚ) := by
        have : 0 < s.data.length := by omega
        exact_mod_cast this
      have hqlt : q < ((s.data.length : ℤ) : ℚ) := by
        rw [hq, div_lt_iff₀ hw6]
        push_cast
        exact (mul_lt_mul_left hlpos).mpr h6
      have hlt : pyInt q < (s.data.length : ℤ) := pyInt_lt_of_nonneg hqpos.le hqlt
      omega
    · rw [if_neg h0]
      push_neg at h0
      have : 0 < s.data.length := by omega
      omega
  · rw [hfit]
    rfl
  · intro h0
    rw [if_pos h0]
    omega

/-- C1 (amended, witness): the amended statement instantiated at the
wide-glyph code on the 2.6in x 1.0in page. -/
theorem spec_C1_witness :
    ∃ k : ℕ, k < wideCode.data.length ∧
      fitCode wideCode.data (available_text_width (13/5) 1)
        = some (.truncated (wideCode.data.take k ++ ellipsis)) ∧
      (0 ≤ maxChars wideCode.data (available_text_width (13/5) 1) →
        (k : ℤ) = maxChars wideCode.data (available_text_width (13/5) 1)) :=
  spec_C1_truncation_shape wideCode (13/5) 1 (by decide) wideCode_gate6 wideCode_halves

/-- C2 (counterexample): for the dash-run code on a 1.65in x 1.0in page
the code fits at neither size, no window position is a boundary between
a non-alphanumeric and an alphanumeric character (every window pair is
dash/dash), yet the split is made at position 8, not at the midpoint 10
— the loop also fires when both neighbours are non-alphanumeric. -/
theorem spec_C2_counterexample : ¬ ClaimC2 dashCode (33/20) 1 := by
  intro hc
  obtain ⟨-, hmid⟩ := hc (by decide) dashCode_gate7 dashCode_gate6
  exact absurd (hmid (by decide)) (by decide)

/-- C2 (amended): the split point is the first window position (scanning
`mid-2, ..., mid+2` left to right, positions clamped to the interior of
the code) at which at least one of the two adjacent characters is
non-alphanumeric; if no window position satisfies that test, the split
is made exactly at `len / 2`. -/
theorem spec_C2_split_rule (s : String) (w h : ℚ)
    (hreg : is_registration_code s = true)
    (h7 : available_text_width w h < stringWidth s.data 7)
    (h6 : available_text_width w h < stringWidth s.data 6) :
    ((∃ i ∈ windowList s.data, breakOk s.data i = true) →
      ∃ l1 l2 i, windowList s.data = l1 ++ i :: l2 ∧
        (∀ j ∈ l1, breakOk s.data j = false) ∧ breakOk s.data i = true ∧
        (splitPoint s.data : ℤ) = i) ∧
    ((∀ i ∈ windowList s.data, breakOk s.data i = false) →
      splitPoint s.data = s.data.length / 2) := by
  constructor
  · intro hex
    cases hfind : (windowList s.data).find? (breakOk s.data) with
    | none =>
      obtain ⟨i, hiw, hib⟩ := hex
      have := List.find?_eq_none.mp hfind i hiw
      simp [hib] at this
    | some i =>
      obtain ⟨hpi, l1, l2, heq, hl1⟩ := find?_first _ _ _ hfind
      refine ⟨l1, l2, i, heq, hl1, hpi, ?_⟩
      have h0 : 0 < i := by
        rw [breakOk] at hpi
        simp only [Bool.and_eq_true, decide_eq_true_eq] at hpi
        exact hpi.1.1
      rw [splitPoint, hfind]
      show (i.toNat : ℤ) = i
      omega
  · intro hall
    cases hfind : (windowList s.data).find? (breakOk s.data) with
    | some i =>
      have hpi := List.find?_some hfind
      have hiw := List.mem_of_find?_eq_some hfind
      rw [hall i hiw] at hpi
      exact absurd hpi (by simp)
    | none =>
      rw [splitPoint, hfind]

/-- C2 (amended, witness): at the dash-run code the first qualifying
window position is 8 (characters 7 and 8 are both dashes), and the
split is made there. -/
theorem spec_C2_witness :
    ∃ l1 l2 i, windowList dashCode.data = l1 ++ i :: l2 ∧
      (∀ j ∈ l1, breakOk dashCode.data j = false) ∧
      breakOk dashCode.data i = true ∧ (splitPoint dashCode.data : ℤ) = i :=
  (spec_C2_split_rule dashCode (33/20) 1 (by decide) dashCode_gate7 dashCode_gate6).1
    (by decide)

/-- C3 (confirmed): whenever the fitting chain draws two stacked lines,
their concatenation is exactly the original code. -/
theorem spec_C3_round_trip (s : String) (w h : ℚ)
    (hreg : is_registration_code s = true) (l1 l2 : List Char)
    (hfit : fitCode s.data (available_text_width w h) = some (.twoLines l1 l2)) :
    l1 ++ l2 = s.data := by
  rw [fitCode] at hfit
  by_cases h7 : stringWidth s.data 7 ≤ available_text_width w h
  · rw [if_pos h7] at hfit
    simp at hfit
  · rw [if_neg h7] at hfit
    by_cases h6 : stringWidth s.data 6 ≤ available_text_width w h
    · rw [if_pos h6] at hfit
      simp at hfit
    · rw [if_neg h6] at hfit
      by_cases h12 : stringWidth (s.data.take (splitPoint s.data)) 6
            ≤ available_text_width w h ∧
          stringWidth (s.data.drop (splitPoint s.data)) 6 ≤ available_text_width w h
      · rw [if_pos h12] at hfit
        simp only [Option.some.injEq, FitResult.twoLines.injEq] at hfit
        rw [← hfit.1, ← hfit.2]
        exact List.take_append_drop _ _
      · rw [if_neg h12] at hfit
        by_cases hz : stringWidth s.data 6 = 0
        · rw [if_pos hz] at hfit
          simp at hfit
        · rw [if_neg hz] at hfit
          simp at hfit

/-- C3 (witness): the dash-run code splits into two lines that
concatenate back to it. -/
theorem spec_C3_witness :
    ("AB1CD2E-").data ++ ("-----F3GHIJK").data = dashCode.data :=
  spec_C3_round_trip dashCode (33/20) 1 (by decide) _ _ dashCode_fit

/-- C4 (confirmed): for every registration code (in the classification
sense, which guarantees a digit and hence nonzero measured width) and
any positive page dimensions, the fitting chain succeeds and yields one
of exactly four outcomes: full code at size 7, full code at size 6, the
two split halves at size 6, or the truncated line with `"..."`. -/
theorem spec_C4_total_four_outcomes (s : String) (w h : ℚ)
    (hw : 0 < w) (hh : 0 < h) (hreg : is_registration_code s = true) :
    ∃ r : FitResult,
      fitCode s.data (available_text_width w h) = some r ∧
      (r = .single7 s.data ∨ r = .single6 s.data ∨
        r = .twoLines (s.data.take (splitPoint s.data)) (s.data.drop (splitPoint s.data)) ∨
        r = .truncated (pySlice s.data (maxChars s.data (available_text_width w h))
              ++ ellipsis)) := by
  by_cases h7 : stringWidth s.data 7 ≤ available_text_width w h
  · exact ⟨_, fitCode_of_fit7 h7, Or.inl rfl⟩
  · by_cases h6 : stringWidth s.data 6 ≤ available_text_width w h
    · exact ⟨_, fitCode_of_fit6 h7 h6, Or.inr (Or.inl rfl)⟩
    · by_cases h12 : stringWidth (s.data.take (splitPoint s.data)) 6
            ≤ available_text_width w h ∧
          stringWidth (s.data.drop (splitPoint s.data)) 6 ≤ available_text_width w h
      · exact ⟨_, fitCode_of_twoLines h7 h6 h12, Or.inr (Or.inr (Or.inl rfl))⟩
      · have hz : ¬ stringWidth s.data 6 = 0 :=
          (stringWidth_pos_of_digit (reg_code_facts hreg).2 (by norm_num)).ne'
        exact ⟨_, fitCode_of_truncation h7 h6 h12 hz, Or.inr (Or.inr (Or.inr rfl))⟩

/-- C4 (witness): the demonstration code on the default 2.625in x 1.0in
page reaches one of the four outcomes. -/
theorem spec_C4_witness :
    ∃ r : FitResult,
      fitCode (("R57NX98AAFC62AF2A").data) (available_text_width (21/8) 1) = some r ∧
      (r = .single7 (("R57NX98AAFC62AF2A").data) ∨
        r = .single6 (("R57NX98AAFC62AF2A").data) ∨
        r = .twoLines ((("R57NX98AAFC62AF2A").data).take
              (splitPoint (("R57NX98AAFC62AF2A").data)))
            ((("R57NX98AAFC62AF2A").data).drop
              (splitPoint (("R57NX98AAFC62AF2A").data))) ∨
        r = .truncated (pySlice (("R57NX98AAFC62AF2A").data)
              (maxChars (("R57NX98AAFC62AF2A").data) (available_text_width (21/8) 1))
              ++ ellipsis)) :=
  spec_C4_total_four_outcomes ("R57NX98AAFC62AF2A") (21/8) 1 (by norm_num) (by norm_num)
    (by decide)

/-- C5 (confirmed): `is_ip_address` and `is_registration_code` are never
both true (a dotted-decimal match contains a dot, which the code test
excludes), and `classify` always lands in one of the three categories. -/
theorem spec_C5_total_exclusive (s : String) :
    (is_ip_address s && is_registration_code s) = false ∧
    (classify s = Category.NetworkAddress ∨ classify s = Category.OpaqueCode ∨
      classify s = Category.Unrecognized) := by
  constructor
  · cases hip : is_ip_address s with
    | false => rfl
    | true =>
      have hdot := dot_mem_of_ip hip
      have hrc : is_registration_code s = false := by
        rw [is_registration_code]
        by_cases h1 : s.length < 10
        · rw [if_pos h1]
        · rw [if_neg h1, if_pos hdot]
      rw [hrc]
      rfl
  · rw [classify]
    by_cases hip : is_ip_address s = true
    · rw [if_pos hip]
      exact Or.inl rfl
    · rw [if_neg hip]
      by_cases hrc : is_registration_code s = true
      · rw [if_pos hrc]
        exact Or.inr (Or.inl rfl)
      · rw [if_neg hrc]
        exact Or.inr (Or.inr rfl)

/-- C6 (confirmed): a string of length at least 10, without a dot, with
a letter and with a digit is accepted by `is_registration_code`. -/
theorem spec_C6_opaque_code_rule (s : String) (hlen : 10 ≤ s.length)
    (hdot : ('.') ∉ s.data) (ha : s.data.any Char.isAlpha = true)
    (hd : s.data.any Char.isDigit = true) :
    is_registration_code s = true := by
  rw [is_registration_code, if_neg (by omega), if_neg hdot, ha, hd]
  rfl

/-- C6 (witness): the rule instantiated at a 10-character mixed string. -/
theorem spec_C6_witness : is_registration_code ("A123456789") = true :=
  spec_C6_opaque_code_rule ("A123456789") (by decide) (by decide) (by decide) (by decide)

/-- C7 (confirmed): a code whose size-7 width fits is drawn as a single
full-code line at size 7; no later fallback step runs, and the label
carries the full code in its QR payload. -/
theorem spec_C7_single_line_at_7 (s : String) (w h : ℚ)
    (hreg : is_registration_code s = true)
    (hfit : stringWidth s.data 7 ≤ available_text_width w h) :
    create_pdf_label s.data w h = some ⟨s.data, .single7 s.data⟩ := by
  rw [create_pdf_label, fitCode_of_fit7 hfit]
  rfl

/-- C7 (witness): the 17-character demonstration code fits at size 7 on
the default page. -/
theorem spec_C7_witness :
    create_pdf_label (("R57NX98AAFC62AF2A").data) (21/8) 1
      = some ⟨("R57NX98AAFC62AF2A").data, .single7 (("R57NX98AAFC62AF2A").data)⟩ :=
  spec_C7_single_line_at_7 ("R57NX98AAFC62AF2A") (21/8) 1 (by decide) regDemo_fits7

/-- C8 (confirmed): whatever label is produced, its QR image encodes the
full registration code — the text-shortening branches never touch the
QR payload. -/
theorem spec_C8_qr_full_payload (s : String) (w h : ℚ)
    (hreg : is_registration_code s = true) (lab : Label)
    (hlab : create_pdf_label s.data w h = some lab) :
    lab.qrPayload = s.data := by
  rw [create_pdf_label] at hlab
  cases hfit : fitCode s.data (available_text_width w h) with
  | none =>
    rw [hfit] at hlab
    simp at hlab
  | some r =>
    rw [hfit] at hlab
    simp only [Option.map_some'] at hlab
    have := Option.some.inj hlab
    rw [← this]
    rfl

/-- C8 (witness): even in the truncation case of the wide-glyph code,
the label's QR payload is the full code. -/
theorem spec_C8_witness :
    (⟨wideCode.data, .truncated wideCodeLine⟩ : Label).qrPayload = wideCode.data :=
  spec_C8_qr_full_payload wideCode (13/5) 1 (by decide) _
    (by rw [create_pdf_label, wideCode_fit]; rfl)

/-- C9 (confirmed): an input accepted by neither classifier makes
`generate_label` return the invalid-input outcome (Python `None`)
without ever invoking `create_pdf_label`. -/
theorem spec_C9_unrecognized_no_render (fetch : String → Option (String × String))
    (input : String) (w h : ℚ)
    (hip : is_ip_address input = false)
    (hreg : is_registration_code input = false) :
    generate_label fetch input w h = GLOutcome.invalidInput ∧
      glResult (generate_label fetch input w h) = none := by
  have hg : generate_label fetch input w h = GLOutcome.invalidInput := by
    rw [generate_label, if_neg (by simp [hip]), if_neg (by simp [hreg])]
  exact ⟨hg, by rw [hg]; rfl⟩

/-- C9 (witness): the no-digit sample input is rejected without
rendering. -/
theorem spec_C9_witness :
    generate_label (fun _ => none) ("not-an-address-or-code!") 1 1
        = GLOutcome.invalidInput ∧
      glResult (generate_label (fun _ => none) ("not-an-address-or-code!") 1 1) = none :=
  spec_C9_unrecognized_no_render _ ("not-an-address-or-code!") 1 1 (by decide) (by decide)

/-- C10 (confirmed): in the address flow, a fetch that returns an empty
QR payload or an empty registration code is treated exactly like a
failed fetch: `generate_label` returns the fetch-failed outcome (Python
`None`) and no label is rendered. -/
theorem spec_C10_empty_fetch_no_render (fetch : String → Option (String × String))
    (input qrSvg regCode : String) (w h : ℚ)
    (hip : is_ip_address input = true)
    (hf : fetch input = some (qrSvg, regCode))
    (hempty : qrSvg = ("") ∨ regCode = ("")) :
    generate_label fetch input w h = GLOutcome.fetchFailed ∧
      glResult (generate_label fetch input w h) = none := by
  have hg : generate_label fetch input w h = GLOutcome.fetchFailed := by
    rw [generate_label, if_pos hip, hf]
    show (if qrSvg = ("") ∨ regCode = ("") then GLOutcome.fetchFailed
          else GLOutcome.rendered regCode.data (create_pdf_label regCode.data w h))
        = GLOutcome.fetchFailed
    rw [if_pos hempty]
  exact ⟨hg, by rw [hg]; rfl⟩

/-- C10 (witness): a successful fetch that returns an empty QR payload
for the address input is treated as a fetch failure. -/
theorem spec_C10_witness :
    generate_label (fun _ => some (("", "RC1234567890"))) ("1.2.3.4") 1 1
        = GLOutcome.fetchFailed ∧
      glResult (generate_label (fun _ => some (("", "RC1234567890"))) ("1.2.3.4") 1 1)
        = none :=
  spec_C10_empty_fetch_no_render _ ("1.2.3.4") ("") ("RC1234567890") 1 1 (by decide) rfl
    (Or.inl rfl)

end GwLabel
